import Mathlib

/-!
Verification development for the curve-generic PLONK backend façade
(`backend/plonk/plonk.go`), the MiMC permutation-hash gadget
(`std/hash/mimc/encrypt.go`) and the quadratic-extension-field gadget
(package `fields`, known here through its tests).

The Go code is shallowly embedded: field elements become elements of an
arbitrary Lean `Field`, the frontend constraint-system builder becomes a
value threaded through each gadget call that records the trace of emitted
gates while the returned `frontend.Variable` is represented by its evaluated
witness value, and the façade's runtime type switches become matches on
explicit concrete-type tags.
-/

/-- The seven curve variants wired into the PLONK façade's dispatch switches
(`ecc.BN254`, `ecc.BLS12_377`, ... in `plonk.go`). -/
inductive CurveKind
  | BN254
  | BLS12_377
  | BLS12_381
  | BW6_761
  | BLS24_317
  | BLS24_315
  | BW6_633
deriving DecidableEq, Repr

/-- A runtime `ecc.ID` value: either one of the seven registry constants or
some other integer value of the underlying enum type, which every dispatch
switch sends to its `default:` branch. -/
inductive EccID
  | known (k : CurveKind)
  | unknown (tag : Nat)
deriving DecidableEq, Repr

/-- The kind of one gate emitted into the frontend constraint system:
an addition / linear-combination gate, a multiplication gate, or an
inversion gate. -/
inductive Gate
  | add
  | mul
  | inv
deriving DecidableEq, Repr

/-- Model of `frontend.ConstraintSystem`: the trace of gates emitted so far.
Values of circuit variables are carried alongside (each builder operation
returns the updated system together with the value the fresh variable takes
under the concrete witness assignment). -/
structure ConstraintSystem where
  gates : List Gate
deriving DecidableEq, Repr

variable {F : Type} [Field F]

/-- `cs.Add(a, b)`: emits one addition gate, the fresh variable evaluates to
`a + b`. (The Go `Add` is variadic; the two-argument form.) -/
def ConstraintSystem.Add2 (cs : ConstraintSystem) (a b : F) :
    ConstraintSystem × F :=
  (⟨cs.gates ++ [Gate.add]⟩, a + b)

/-- `cs.Add(a, b, c)`: the three-argument form of the variadic `Add`; one
addition gate, value `a + b + c`. -/
def ConstraintSystem.Add3 (cs : ConstraintSystem) (a b c : F) :
    ConstraintSystem × F :=
  (⟨cs.gates ++ [Gate.add]⟩, a + b + c)

/-- `cs.Mul(a, b)`: one multiplication gate, value `a * b`. -/
def ConstraintSystem.Mul (cs : ConstraintSystem) (a b : F) :
    ConstraintSystem × F :=
  (⟨cs.gates ++ [Gate.mul]⟩, a * b)

/-- Modelled from the spec: `frontend.ConstraintSystem.Inverse`, the
frontend's inversion gate (the frontend package itself is not part of the
analyzed slice).  One inversion gate is emitted; the fresh variable takes the
field's extended inverse of the input, so an input of `0` evaluates to `0`
(Lean's `Field` convention `0⁻¹ = 0` matches the spec's "extended-inverse
convention"). -/
def ConstraintSystem.Inverse (cs : ConstraintSystem) (a : F) :
    ConstraintSystem × F :=
  (⟨cs.gates ++ [Gate.inv]⟩, a⁻¹)

/-- `mimc.MiMC`: the ordered round constants (`params`, big integers copied
out of the external derivation routine) plus the curve they were derived
for (`id`). -/
structure MiMC (F : Type) where
  params : List F
  id : EccID

/-- One loop iteration of `encryptBN256` / `encryptBLS381` / `encryptBW761`
(their loop bodies are textually identical in the source):
`tmp := cs.Add(res, key, c)` then `res = cs.Mul(tmp,tmp); res = cs.Mul(res,res);
res = cs.Mul(res,tmp)`. -/
def mimcRound5 (key : F) (st : ConstraintSystem × F) (c : F) :
    ConstraintSystem × F :=
  let a := st.1.Add3 st.2 key c
  let m1 := a.1.Mul a.2 a.2
  let m2 := m1.1.Mul m1.2 m1.2
  m2.1.Mul m2.2 a.2

/-- One loop iteration of `encryptBLS377`:
`tmp := cs.Add(res, h.params[i], key)` then `res = cs.Inverse(tmp)`. -/
def mimcRoundInv (key : F) (st : ConstraintSystem × F) (c : F) :
    ConstraintSystem × F :=
  let a := st.1.Add3 st.2 c key
  a.1.Inverse a.2

/-- `encryptBN256(cs, h, message, key)`: the degree-5 Sbox rounds over
`h.params`, then `res = cs.Add(res, key)`. -/
def encryptBN256 (cs : ConstraintSystem) (h : MiMC F) (message key : F) :
    ConstraintSystem × F :=
  let l := h.params.foldl (mimcRound5 key) (cs, message)
  l.1.Add2 l.2 key

/-- `encryptBLS381(cs, h, message, key)`: same structure as `encryptBN256`. -/
def encryptBLS381 (cs : ConstraintSystem) (h : MiMC F) (message key : F) :
    ConstraintSystem × F :=
  let l := h.params.foldl (mimcRound5 key) (cs, message)
  l.1.Add2 l.2 key

/-- `encryptBW761(cs, h, message, key)`: same structure as `encryptBN256`. -/
def encryptBW761 (cs : ConstraintSystem) (h : MiMC F) (message key : F) :
    ConstraintSystem × F :=
  let l := h.params.foldl (mimcRound5 key) (cs, message)
  l.1.Add2 l.2 key

/-- `encryptBLS377(cs, h, message, key)`: the inverse-Sbox rounds over
`h.params`, then `res = cs.Add(res, key)`. -/
def encryptBLS377 (cs : ConstraintSystem) (h : MiMC F) (message key : F) :
    ConstraintSystem × F :=
  let l := h.params.foldl (mimcRoundInv key) (cs, message)
  l.1.Add2 l.2 key

/-- `newMimcBLS377(seed)`.  The external derivation routine
`bls377.NewParams` is taken as a parameter `NewParams`; the Go loop copies
each derived constant into `res.params` in order (`append` per element). -/
def newMimcBLS377 (NewParams : String → List F) (seed : String) : MiMC F :=
  { params := (NewParams seed).foldl (fun acc v => acc ++ [v]) []
    id := EccID.known CurveKind.BLS12_377 }

/-- `newMimcBLS381(seed)`, with `bls381.NewParams` as parameter. -/
def newMimcBLS381 (NewParams : String → List F) (seed : String) : MiMC F :=
  { params := (NewParams seed).foldl (fun acc v => acc ++ [v]) []
    id := EccID.known CurveKind.BLS12_381 }

/-- `newMimcBN256(seed)`, with `bn256.NewParams` as parameter. -/
def newMimcBN256 (NewParams : String → List F) (seed : String) : MiMC F :=
  { params := (NewParams seed).foldl (fun acc v => acc ++ [v]) []
    id := EccID.known CurveKind.BN254 }

/-- `newMimcBW761(seed)`, with `bw761.NewParams` as parameter. -/
def newMimcBW761 (NewParams : String → List F) (seed : String) : MiMC F :=
  { params := (NewParams seed).foldl (fun acc v => acc ++ [v]) []
    id := EccID.known CurveKind.BW6_761 }

/-- The `encryptFuncs` map as populated by the package's one-time setup
function: entries for exactly BN254, BLS12-381, BLS12-377 and BW6-761;
every other id is absent (`none`). -/
def encryptFuncs (F : Type) [Field F] (id : EccID) :
    Option (ConstraintSystem → MiMC F → F → F → ConstraintSystem × F) :=
  match id with
  | EccID.known CurveKind.BN254 => some encryptBN256
  | EccID.known CurveKind.BLS12_381 => some encryptBLS381
  | EccID.known CurveKind.BLS12_377 => some encryptBLS377
  | EccID.known CurveKind.BW6_761 => some encryptBW761
  | _ => none

/-- The `newMimc` map as populated by the package's one-time setup function.
`NP` supplies each curve's external constant-derivation routine. -/
def newMimc (NP : CurveKind → String → List F) (id : EccID) :
    Option (String → MiMC F) :=
  match id with
  | EccID.known CurveKind.BN254 => some (newMimcBN256 (NP CurveKind.BN254))
  | EccID.known CurveKind.BLS12_381 => some (newMimcBLS381 (NP CurveKind.BLS12_381))
  | EccID.known CurveKind.BLS12_377 => some (newMimcBLS377 (NP CurveKind.BLS12_377))
  | EccID.known CurveKind.BW6_761 => some (newMimcBW761 (NP CurveKind.BW6_761))
  | _ => none

/-- `fields.Extension`: the quadratic-extension parameters; `uSquare` is the
non-residue `n` with generator `u` satisfying `u² = n` (the tests use
`Extension{uSquare: 5}`). -/
structure Extension (F : Type) where
  uSquare : F

/-- `fields.Fp2Elmt`: an extension-field element `X + Y·u`, a pair of circuit
variables (here carried by their witness values). -/
structure Fp2Elmt (F : Type) where
  X : F
  Y : F
deriving DecidableEq, Repr

/-- Modelled from the spec: `Fp2Elmt.Mul` (the `fields` package source is not
in the analyzed slice; only its tests are).  Karatsuba-style product with
exactly 3 multiplication gates: `a0·b0`, `a1·b1`, `(a0+a1)(b0+b1)`; the
result is `(a0·b0 + n·a1·b1, (a0+a1)(b0+b1) - a0·b0 - a1·b1)`, the cross
term and `n`-scaling realized as linear combinations. -/
def Fp2Elmt.Mul (cs : ConstraintSystem) (a b : Fp2Elmt F) (ext : Extension F) :
    ConstraintSystem × Fp2Elmt F :=
  let s1 := cs.Add2 a.X a.Y
  let s2 := s1.1.Add2 b.X b.Y
  let m0 := s2.1.Mul a.X b.X
  let m1 := m0.1.Mul a.Y b.Y
  let m2 := m1.1.Mul s1.2 s2.2
  (m2.1, ⟨m0.2 + ext.uSquare * m1.2, m2.2 - m0.2 - m1.2⟩)

/-- Modelled from the spec: `Fp2Elmt.Inverse` (the `fields` package source is
not in the analyzed slice).  Computes the norm `d = a0² - n·a1²` via two
squarings (the `n`-scaling and subtraction being linear), obtains `d⁻¹`
through the base system's inversion gate, and returns `(a0·d⁻¹, -a1·d⁻¹)`. -/
def Fp2Elmt.Inverse (cs : ConstraintSystem) (a : Fp2Elmt F) (ext : Extension F) :
    ConstraintSystem × Fp2Elmt F :=
  let s0 := cs.Mul a.X a.X
  let s1 := s0.1.Mul a.Y a.Y
  let d := s0.2 - ext.uSquare * s1.2
  let di := s1.1.Inverse d
  let c0 := di.1.Mul a.X di.2
  let c1 := c0.1.Mul a.Y di.2
  (c1.1, ⟨c0.2, -c1.2⟩)

/-- 13 is prime, giving `ZMod 13` its field structure for concrete
evaluations. -/
instance fact_prime_13 : Fact (Nat.Prime 13) := ⟨by norm_num⟩

namespace Plonk

/-- The dynamic (concrete) type of a Go interface value handed to the façade:
either one of the seven registry curves' concrete types, or some foreign
concrete type that no `case` of the type switch matches. -/
inductive ConcreteTy
  | curve (k : CurveKind)
  | foreign (tag : Nat)
deriving DecidableEq, Repr

/-- A `constraint.ConstraintSystem` interface value, abstracted to the tag of
its concrete type (`*cs_bn254.SparseR1CS`, ...). -/
structure CCS where
  curve : ConcreteTy
deriving DecidableEq, Repr

/-- A `kzg.SRS` interface value, abstracted to its concrete type tag. -/
structure SRS where
  curve : ConcreteTy
deriving DecidableEq, Repr

/-- A `plonk.Proof` interface value, abstracted to its concrete type tag. -/
structure Proof where
  curve : ConcreteTy
deriving DecidableEq, Repr

/-- A `plonk.ProvingKey` interface value, abstracted to its concrete type
tag. -/
structure ProvingKey where
  curve : ConcreteTy
deriving DecidableEq, Repr

/-- A `plonk.VerifyingKey` interface value, abstracted to its concrete type
tag. -/
structure VerifyingKey where
  curve : ConcreteTy
deriving DecidableEq, Repr

/-- A `witness.Witness` value, abstracted to the concrete type tag of the
vector returned by `publicWitness.Vector()` (`fr_bn254.Vector`, ...). -/
structure Witness where
  vectorCurve : ConcreteTy
deriving DecidableEq, Repr

/-- Recoverable errors surfaced by the façade. -/
inductive PlonkError
  | invalidWitness
  | delegated (tag : Nat)
deriving DecidableEq, Repr

/-- The observable outcome of a façade call: a returned value, a returned
(recoverable) error, or a runtime panic with its message. -/
inductive Outcome (α : Type)
  | ok (a : α)
  | error (e : PlonkError)
  | panics (msg : String)
deriving DecidableEq, Repr

/-- `plonk.Setup(ccs, kzgSrs)`.  Type switch on the concrete type of `ccs`;
in each recognized case the argument `kzgSrs` is narrowed by an *unchecked*
type assertion `kzgSrs.(*kzg_X.SRS)` (a mismatch panics with Go's
"interface conversion" runtime error) before delegating to the curve's
setup routine, taken here as the parameter `inner`.  A `ccs` whose concrete
type no case matches hits `default: panic("unrecognized SparseR1CS curve
type")`. -/
def Setup (inner : CurveKind → CCS → SRS → Outcome (ProvingKey × VerifyingKey))
    (ccs : CCS) (kzgSrs : SRS) : Outcome (ProvingKey × VerifyingKey) :=
  match ccs.curve with
  | ConcreteTy.curve k =>
      if kzgSrs.curve = ConcreteTy.curve k then inner k ccs kzgSrs
      else Outcome.panics "interface conversion"
  | ConcreteTy.foreign _ => Outcome.panics "unrecognized SparseR1CS curve type"

/-- `plonk.Prove(ccs, pk, fullWitness, opts...)`.  Type switch on `ccs`;
each recognized case narrows `pk` by an unchecked assertion
`pk.(*plonk_X.ProvingKey)` before delegating to the curve prover `inner`;
an unrecognized `ccs` concrete type panics. -/
def Prove (inner : CurveKind → CCS → ProvingKey → Witness → Outcome Proof)
    (ccs : CCS) (pk : ProvingKey) (fullWitness : Witness) : Outcome Proof :=
  match ccs.curve with
  | ConcreteTy.curve k =>
      if pk.curve = ConcreteTy.curve k then inner k ccs pk fullWitness
      else Outcome.panics "interface conversion"
  | ConcreteTy.foreign _ => Outcome.panics "unrecognized SparseR1CS curve type"

/-- `plonk.Verify(proof, vk, publicWitness)`.  Type switch on the concrete
type of `proof`; each recognized case first checks
`publicWitness.Vector().(fr_X.Vector)` with the comma-ok form and returns
`witness.ErrInvalidWitness` on mismatch, and only then narrows `vk` by the
*unchecked* assertion `vk.(*plonk_X.VerifyingKey)` (mismatch panics) while
delegating to the curve verifier `inner`.  An unrecognized `proof` concrete
type hits `default: panic("unrecognized proof type")`. -/
def Verify (inner : CurveKind → Proof → VerifyingKey → Witness → Outcome Unit)
    (proof : Proof) (vk : VerifyingKey) (publicWitness : Witness) :
    Outcome Unit :=
  match proof.curve with
  | ConcreteTy.curve k =>
      if publicWitness.vectorCurve = ConcreteTy.curve k then
        if vk.curve = ConcreteTy.curve k then inner k proof vk publicWitness
        else Outcome.panics "interface conversion"
      else Outcome.error PlonkError.invalidWitness
  | ConcreteTy.foreign _ => Outcome.panics "unrecognized proof type"

/-- `plonk.NewCS(curveID)`: exhaustive switch over the seven registry ids,
allocating that curve's concrete `SparseR1CS`; `default: panic("not
implemented")`. -/
def NewCS (curveID : EccID) : Outcome CCS :=
  match curveID with
  | EccID.known CurveKind.BN254 => Outcome.ok ⟨ConcreteTy.curve CurveKind.BN254⟩
  | EccID.known CurveKind.BLS12_377 => Outcome.ok ⟨ConcreteTy.curve CurveKind.BLS12_377⟩
  | EccID.known CurveKind.BLS12_381 => Outcome.ok ⟨ConcreteTy.curve CurveKind.BLS12_381⟩
  | EccID.known CurveKind.BW6_761 => Outcome.ok ⟨ConcreteTy.curve CurveKind.BW6_761⟩
  | EccID.known CurveKind.BLS24_317 => Outcome.ok ⟨ConcreteTy.curve CurveKind.BLS24_317⟩
  | EccID.known CurveKind.BLS24_315 => Outcome.ok ⟨ConcreteTy.curve CurveKind.BLS24_315⟩
  | EccID.known CurveKind.BW6_633 => Outcome.ok ⟨ConcreteTy.curve CurveKind.BW6_633⟩
  | EccID.unknown _ => Outcome.panics "not implemented"

/-- `plonk.NewProvingKey(curveID)`: exhaustive switch allocating the curve's
concrete `ProvingKey`; unknown id panics "not implemented". -/
def NewProvingKey (curveID : EccID) : Outcome ProvingKey :=
  match curveID with
  | EccID.known CurveKind.BN254 => Outcome.ok ⟨ConcreteTy.curve CurveKind.BN254⟩
  | EccID.known CurveKind.BLS12_377 => Outcome.ok ⟨ConcreteTy.curve CurveKind.BLS12_377⟩
  | EccID.known CurveKind.BLS12_381 => Outcome.ok ⟨ConcreteTy.curve CurveKind.BLS12_381⟩
  | EccID.known CurveKind.BW6_761 => Outcome.ok ⟨ConcreteTy.curve CurveKind.BW6_761⟩
  | EccID.known CurveKind.BLS24_317 => Outcome.ok ⟨ConcreteTy.curve CurveKind.BLS24_317⟩
  | EccID.known CurveKind.BLS24_315 => Outcome.ok ⟨ConcreteTy.curve CurveKind.BLS24_315⟩
  | EccID.known CurveKind.BW6_633 => Outcome.ok ⟨ConcreteTy.curve CurveKind.BW6_633⟩
  | EccID.unknown _ => Outcome.panics "not implemented"

/-- `plonk.NewProof(curveID)`: exhaustive switch allocating the curve's
concrete `Proof`; unknown id panics "not implemented". -/
def NewProof (curveID : EccID) : Outcome Proof :=
  match curveID with
  | EccID.known CurveKind.BN254 => Outcome.ok ⟨ConcreteTy.curve CurveKind.BN254⟩
  | EccID.known CurveKind.BLS12_377 => Outcome.ok ⟨ConcreteTy.curve CurveKind.BLS12_377⟩
  | EccID.known CurveKind.BLS12_381 => Outcome.ok ⟨ConcreteTy.curve CurveKind.BLS12_381⟩
  | EccID.known CurveKind.BW6_761 => Outcome.ok ⟨ConcreteTy.curve CurveKind.BW6_761⟩
  | EccID.known CurveKind.BLS24_317 => Outcome.ok ⟨ConcreteTy.curve CurveKind.BLS24_317⟩
  | EccID.known CurveKind.BLS24_315 => Outcome.ok ⟨ConcreteTy.curve CurveKind.BLS24_315⟩
  | EccID.known CurveKind.BW6_633 => Outcome.ok ⟨ConcreteTy.curve CurveKind.BW6_633⟩
  | EccID.unknown _ => Outcome.panics "not implemented"

/-- `plonk.NewVerifyingKey(curveID)`: exhaustive switch allocating the
curve's concrete `VerifyingKey`; unknown id panics "not implemented". -/
def NewVerifyingKey (curveID : EccID) : Outcome VerifyingKey :=
  match curveID with
  | EccID.known CurveKind.BN254 => Outcome.ok ⟨ConcreteTy.curve CurveKind.BN254⟩
  | EccID.known CurveKind.BLS12_377 => Outcome.ok ⟨ConcreteTy.curve CurveKind.BLS12_377⟩
  | EccID.known CurveKind.BLS12_381 => Outcome.ok ⟨ConcreteTy.curve CurveKind.BLS12_381⟩
  | EccID.known CurveKind.BW6_761 => Outcome.ok ⟨ConcreteTy.curve CurveKind.BW6_761⟩
  | EccID.known CurveKind.BLS24_317 => Outcome.ok ⟨ConcreteTy.curve CurveKind.BLS24_317⟩
  | EccID.known CurveKind.BLS24_315 => Outcome.ok ⟨ConcreteTy.curve CurveKind.BLS24_315⟩
  | EccID.known CurveKind.BW6_633 => Outcome.ok ⟨ConcreteTy.curve CurveKind.BW6_633⟩
  | EccID.unknown _ => Outcome.panics "not implemented"

end Plonk

/-- C1: for every call `Verify(proof, vk, publicWitness)` where `proof`'s
concrete type belongs to a registered curve variant, if `publicWitness`'s
underlying vector representation is not that curve's field vector type,
`Verify` returns the `InvalidWitness` error as a recoverable result (an
`Outcome.error`, never a panic), for every curve-specific verifier. -/
theorem verify_mismatched_witness_invalid
    (inner : CurveKind → Plonk.Proof → Plonk.VerifyingKey → Plonk.Witness →
      Plonk.Outcome Unit)
    (k : CurveKind) (proof : Plonk.Proof) (vk : Plonk.VerifyingKey)
    (w : Plonk.Witness)
    (hp : proof.curve = Plonk.ConcreteTy.curve k)
    (hw : w.vectorCurve ≠ Plonk.ConcreteTy.curve k) :
    Plonk.Verify inner proof vk w =
      Plonk.Outcome.error Plonk.PlonkError.invalidWitness := by
  unfold Plonk.Verify
  rw [hp]
  simp [hw]

/-- Witness for C1 at concrete inputs: a BN254 proof with a witness whose
vector is a foreign type yields `ErrInvalidWitness`. -/
theorem verify_mismatched_witness_invalid_witness :
    (⟨Plonk.ConcreteTy.curve CurveKind.BN254⟩ : Plonk.Proof).curve =
        Plonk.ConcreteTy.curve CurveKind.BN254 ∧
    (⟨Plonk.ConcreteTy.foreign 0⟩ : Plonk.Witness).vectorCurve ≠
        Plonk.ConcreteTy.curve CurveKind.BN254 ∧
    Plonk.Verify (fun _ _ _ _ => Plonk.Outcome.ok ())
        ⟨Plonk.ConcreteTy.curve CurveKind.BN254⟩
        ⟨Plonk.ConcreteTy.curve CurveKind.BN254⟩
        ⟨Plonk.ConcreteTy.foreign 0⟩ =
      Plonk.Outcome.error Plonk.PlonkError.invalidWitness :=
  ⟨rfl, by decide,
    verify_mismatched_witness_invalid _ CurveKind.BN254 _ _ _ rfl (by decide)⟩

/-- C2: when the dispatched variant is recognized but a companion artifact
belongs to a different variant, the façade panics through an unchecked type
assertion: in `Setup`, a reference string whose concrete type is not the
constraint system's curve's SRS type panics; in `Verify`, when proof and
public witness are of the same recognized curve but the verifying key is a
different curve's concrete type, the call panics rather than returning
`InvalidWitness`. -/
theorem companion_mismatch_panics
    (setupInner : CurveKind → Plonk.CCS → Plonk.SRS →
      Plonk.Outcome (Plonk.ProvingKey × Plonk.VerifyingKey))
    (verifyInner : CurveKind → Plonk.Proof → Plonk.VerifyingKey →
      Plonk.Witness → Plonk.Outcome Unit)
    (k k' : CurveKind) (ccs : Plonk.CCS) (srs : Plonk.SRS)
    (proof : Plonk.Proof) (vk : Plonk.VerifyingKey) (w : Plonk.Witness)
    (hccs : ccs.curve = Plonk.ConcreteTy.curve k)
    (hsrs : srs.curve ≠ Plonk.ConcreteTy.curve k)
    (hp : proof.curve = Plonk.ConcreteTy.curve k')
    (hw : w.vectorCurve = Plonk.ConcreteTy.curve k')
    (hvk : vk.curve ≠ Plonk.ConcreteTy.curve k') :
    Plonk.Setup setupInner ccs srs = Plonk.Outcome.panics "interface conversion" ∧
    Plonk.Verify verifyInner proof vk w =
      Plonk.Outcome.panics "interface conversion" := by
  constructor
  · unfold Plonk.Setup
    rw [hccs]
    simp [hsrs]
  · unfold Plonk.Verify
    rw [hp]
    simp [hw, hvk]

/-- Witness for C2 at concrete inputs: a BN254 constraint system with a
BLS12-377 reference string, and a BN254 proof/witness pair with a BLS12-377
verifying key, both panic. -/
theorem companion_mismatch_panics_witness :
    (⟨Plonk.ConcreteTy.curve CurveKind.BN254⟩ : Plonk.CCS).curve =
        Plonk.ConcreteTy.curve CurveKind.BN254 ∧
    (Plonk.SRS.mk (Plonk.ConcreteTy.curve CurveKind.BLS12_377)).curve ≠
        Plonk.ConcreteTy.curve CurveKind.BN254 ∧
    (Plonk.VerifyingKey.mk (Plonk.ConcreteTy.curve CurveKind.BLS12_377)).curve ≠
        Plonk.ConcreteTy.curve CurveKind.BN254 ∧
    Plonk.Setup (fun _ _ _ => Plonk.Outcome.panics "unused")
        ⟨Plonk.ConcreteTy.curve CurveKind.BN254⟩
        ⟨Plonk.ConcreteTy.curve CurveKind.BLS12_377⟩ =
      Plonk.Outcome.panics "interface conversion" ∧
    Plonk.Verify (fun _ _ _ _ => Plonk.Outcome.ok ())
        ⟨Plonk.ConcreteTy.curve CurveKind.BN254⟩
        ⟨Plonk.ConcreteTy.curve CurveKind.BLS12_377⟩
        ⟨Plonk.ConcreteTy.curve CurveKind.BN254⟩ =
      Plonk.Outcome.panics "interface conversion" :=
  ⟨rfl, by decide, by decide,
    (companion_mismatch_panics (fun _ _ _ => Plonk.Outcome.panics "unused")
      (fun _ _ _ _ => Plonk.Outcome.ok ()) CurveKind.BN254 CurveKind.BN254
      ⟨Plonk.ConcreteTy.curve CurveKind.BN254⟩
      ⟨Plonk.ConcreteTy.curve CurveKind.BLS12_377⟩
      ⟨Plonk.ConcreteTy.curve CurveKind.BN254⟩
      ⟨Plonk.ConcreteTy.curve CurveKind.BLS12_377⟩
      ⟨Plonk.ConcreteTy.curve CurveKind.BN254⟩
      rfl (by decide) rfl rfl (by decide)).1,
    (companion_mismatch_panics (fun _ _ _ => Plonk.Outcome.panics "unused")
      (fun _ _ _ _ => Plonk.Outcome.ok ()) CurveKind.BN254 CurveKind.BN254
      ⟨Plonk.ConcreteTy.curve CurveKind.BN254⟩
      ⟨Plonk.ConcreteTy.curve CurveKind.BLS12_377⟩
      ⟨Plonk.ConcreteTy.curve CurveKind.BN254⟩
      ⟨Plonk.ConcreteTy.curve CurveKind.BLS12_377⟩
      ⟨Plonk.ConcreteTy.curve CurveKind.BN254⟩
      rfl (by decide) rfl rfl (by decide)).2⟩

/-- C7: for every curve variant in the registry, each of `NewCS`,
`NewProvingKey`, `NewVerifyingKey` and `NewProof` returns (rather than
panics) an artifact whose concrete type is that variant's curve-specific
type; for any curve identifier outside the registry each factory panics
"not implemented". -/
theorem artifact_factories_total (k : CurveKind) (t : Nat) :
    Plonk.NewCS (EccID.known k) = Plonk.Outcome.ok ⟨Plonk.ConcreteTy.curve k⟩ ∧
    Plonk.NewProvingKey (EccID.known k) =
      Plonk.Outcome.ok ⟨Plonk.ConcreteTy.curve k⟩ ∧
    Plonk.NewVerifyingKey (EccID.known k) =
      Plonk.Outcome.ok ⟨Plonk.ConcreteTy.curve k⟩ ∧
    Plonk.NewProof (EccID.known k) =
      Plonk.Outcome.ok ⟨Plonk.ConcreteTy.curve k⟩ ∧
    Plonk.NewCS (EccID.unknown t) = Plonk.Outcome.panics "not implemented" ∧
    Plonk.NewProvingKey (EccID.unknown t) =
      Plonk.Outcome.panics "not implemented" ∧
    Plonk.NewVerifyingKey (EccID.unknown t) =
      Plonk.Outcome.panics "not implemented" ∧
    Plonk.NewProof (EccID.unknown t) =
      Plonk.Outcome.panics "not implemented" := by
  cases k <;> exact ⟨rfl, rfl, rfl, rfl, rfl, rfl, rfl, rfl⟩

/-- C8: `Setup`, `Prove` and `Verify` panic (rather than return) when the
constraint system's concrete curve type (for `Setup`/`Prove`) or the proof's
concrete type (for `Verify`) is outside the curve variant registry, whatever
the delegated implementations are. -/
theorem dispatch_foreign_type_panics (t : Nat)
    (setupInner : CurveKind → Plonk.CCS → Plonk.SRS →
      Plonk.Outcome (Plonk.ProvingKey × Plonk.VerifyingKey))
    (proveInner : CurveKind → Plonk.CCS → Plonk.ProvingKey → Plonk.Witness →
      Plonk.Outcome Plonk.Proof)
    (verifyInner : CurveKind → Plonk.Proof → Plonk.VerifyingKey →
      Plonk.Witness → Plonk.Outcome Unit)
    (srs : Plonk.SRS) (pk : Plonk.ProvingKey) (fw : Plonk.Witness)
    (vk : Plonk.VerifyingKey) (w : Plonk.Witness) :
    Plonk.Setup setupInner ⟨Plonk.ConcreteTy.foreign t⟩ srs =
      Plonk.Outcome.panics "unrecognized SparseR1CS curve type" ∧
    Plonk.Prove proveInner ⟨Plonk.ConcreteTy.foreign t⟩ pk fw =
      Plonk.Outcome.panics "unrecognized SparseR1CS curve type" ∧
    Plonk.Verify verifyInner ⟨Plonk.ConcreteTy.foreign t⟩ vk w =
      Plonk.Outcome.panics "unrecognized proof type" :=
  ⟨rfl, rfl, rfl⟩

theorem mimcRound5_eq (key r c : F) (cs : ConstraintSystem) :
    mimcRound5 key (cs, r) c =
      (⟨cs.gates ++ [Gate.add, Gate.mul, Gate.mul, Gate.mul]⟩,
        (r + key + c) ^ 5) := by
  simp only [mimcRound5, ConstraintSystem.Add3, ConstraintSystem.Mul,
    Prod.mk.injEq, ConstraintSystem.mk.injEq, List.append_assoc,
    List.cons_append, List.nil_append]
  exact ⟨by simp, by ring⟩

theorem mimcRound5_foldl (key : F) (ps : List F) (cs : ConstraintSystem)
    (r : F) :
    ps.foldl (mimcRound5 key) (cs, r) =
      (⟨cs.gates ++
          (ps.map fun _ => [Gate.add, Gate.mul, Gate.mul, Gate.mul]).flatten⟩,
        ps.foldl (fun acc c => (acc + key + c) ^ 5) r) := by
  induction ps generalizing cs r with
  | nil => simp
  | cons c ps ih =>
    rw [List.foldl_cons, mimcRound5_eq, ih, List.foldl_cons]
    simp [List.append_assoc]

theorem mimcRoundInv_eq (key r c : F) (cs : ConstraintSystem) :
    mimcRoundInv key (cs, r) c =
      (⟨cs.gates ++ [Gate.add, Gate.inv]⟩, (r + c + key)⁻¹) := by
  simp [mimcRoundInv, ConstraintSystem.Add3, ConstraintSystem.Inverse]

theorem mimcRoundInv_foldl (key : F) (ps : List F) (cs : ConstraintSystem)
    (r : F) :
    ps.foldl (mimcRoundInv key) (cs, r) =
      (⟨cs.gates ++ (ps.map fun _ => [Gate.add, Gate.inv]).flatten⟩,
        ps.foldl (fun acc c => (acc + c + key)⁻¹) r) := by
  induction ps generalizing cs r with
  | nil => simp
  | cons c ps ih =>
    rw [List.foldl_cons, mimcRoundInv_eq, ih, List.foldl_cons]
    simp [List.append_assoc]

theorem count_inv_roundGates {α : Type} (ps : List α) :
    ((ps.map fun _ => [Gate.add, Gate.inv]).flatten).count Gate.inv = ps.length := by
  induction ps with
  | nil => rfl
  | cons c ps ih =>
    simp only [List.map_cons, List.flatten_cons, List.count_append, ih,
      List.length_cons]
    have h1 : List.count Gate.inv [Gate.add, Gate.inv] = 1 := by decide
    omega

/-- C4: for every default-policy curve variant (`encryptBN256`,
`encryptBLS381`, `encryptBW761`) and every MiMC state, `encrypt` iterates the
round constants in order, each round emitting one addition gate for
`t = acc + key + c` and exactly three multiplication gates computing `t⁵` as
`t² → t⁴ → t⁴·t`; after the last round one more addition gate adds `key` to
the accumulator, which is the returned value. -/
theorem encrypt_pow5_rounds (F : Type) [Field F] (cs : ConstraintSystem)
    (h : MiMC F) (m k : F) :
    encryptBN256 cs h m k =
      (⟨cs.gates ++
          (h.params.map fun _ => [Gate.add, Gate.mul, Gate.mul, Gate.mul]).flatten
          ++ [Gate.add]⟩,
        h.params.foldl (fun acc c => (acc + k + c) ^ 5) m + k) ∧
    encryptBLS381 cs h m k =
      (⟨cs.gates ++
          (h.params.map fun _ => [Gate.add, Gate.mul, Gate.mul, Gate.mul]).flatten
          ++ [Gate.add]⟩,
        h.params.foldl (fun acc c => (acc + k + c) ^ 5) m + k) ∧
    encryptBW761 cs h m k =
      (⟨cs.gates ++
          (h.params.map fun _ => [Gate.add, Gate.mul, Gate.mul, Gate.mul]).flatten
          ++ [Gate.add]⟩,
        h.params.foldl (fun acc c => (acc + k + c) ^ 5) m + k) := by
  refine ⟨?_, ?_, ?_⟩ <;>
    · show (let l := h.params.foldl (mimcRound5 k) (cs, m); l.1.Add2 l.2 k) = _
      rw [mimcRound5_foldl]
      simp [ConstraintSystem.Add2]

/-- C3: for the alternate-policy curve (BLS12-377), each round of `encrypt`
emits one addition gate and exactly one inversion gate inverting
`t = acc + c + key`; a round where `t = 0` evaluates to `0` by the field's
extended-inverse convention rather than failing; the feed-forward addition
of `key` follows the last round. -/
theorem encryptBLS377_inverse_rounds (F : Type) [Field F]
    (cs : ConstraintSystem) (h : MiMC F) (m k : F) :
    encryptBLS377 cs h m k =
      (⟨cs.gates ++ (h.params.map fun _ => [Gate.add, Gate.inv]).flatten
          ++ [Gate.add]⟩,
        h.params.foldl (fun acc c => (acc + c + k)⁻¹) m + k) ∧
    (encryptBLS377 cs h m k).1.gates.count Gate.inv =
      cs.gates.count Gate.inv + h.params.length ∧
    ∀ acc c : F, acc + c + k = 0 → (acc + c + k)⁻¹ = 0 := by
  have main : encryptBLS377 cs h m k =
      (⟨cs.gates ++ (h.params.map fun _ => [Gate.add, Gate.inv]).flatten
          ++ [Gate.add]⟩,
        h.params.foldl (fun acc c => (acc + c + k)⁻¹) m + k) := by
    show (let l := h.params.foldl (mimcRoundInv k) (cs, m); l.1.Add2 l.2 k) = _
    rw [mimcRoundInv_foldl]
    simp [ConstraintSystem.Add2]
  refine ⟨main, ?_, ?_⟩
  · rw [main]
    show (cs.gates ++ (h.params.map fun _ => [Gate.add, Gate.inv]).flatten
        ++ [Gate.add]).count Gate.inv = _
    rw [List.count_append, List.count_append, count_inv_roundGates]
    have h1 : List.count Gate.inv [Gate.add] = 0 := by decide
    omega
  · intro acc c h0
    rw [h0]
    exact inv_zero

/-- C6: two MiMC states obtained from the registry's constructor for the
same curve variant and the same seed hold identical round-constant
sequences, and the registered `encrypt` function applied to them with the
same `(message, key)` produces identical output. -/
theorem mimc_build_encrypt_deterministic (F : Type) [Field F]
    (NP : CurveKind → String → List F) (id : EccID) (ctor : String → MiMC F)
    (seed : String) (h1 h2 : MiMC F)
    (hc : newMimc NP id = some ctor)
    (e1 : h1 = ctor seed) (e2 : h2 = ctor seed) :
    h1.params = h2.params ∧
    ∀ ef, encryptFuncs F id = some ef →
      ∀ cs m k, ef cs h1 m k = ef cs h2 m k := by
  subst e1
  subst e2
  exact ⟨rfl, fun ef _ cs m k => rfl⟩

/-- Witness for C6 at concrete inputs: the BN254 constructor from the
registry, run twice on seed "seed", and the registered BN254 encrypt
function. -/
theorem mimc_build_encrypt_deterministic_witness :
    newMimc (fun _ _ => [(1 : ZMod 13), 2]) (EccID.known CurveKind.BN254) =
      some (newMimcBN256 (fun _ => [(1 : ZMod 13), 2])) ∧
    ((newMimcBN256 (fun _ => [(1 : ZMod 13), 2]) "seed").params =
      (newMimcBN256 (fun _ => [(1 : ZMod 13), 2]) "seed").params ∧
     ∀ ef, encryptFuncs (ZMod 13) (EccID.known CurveKind.BN254) = some ef →
       ∀ cs m k,
         ef cs (newMimcBN256 (fun _ => [(1 : ZMod 13), 2]) "seed") m k =
         ef cs (newMimcBN256 (fun _ => [(1 : ZMod 13), 2]) "seed") m k) :=
  ⟨rfl,
    mimc_build_encrypt_deterministic (ZMod 13) (fun _ _ => [1, 2])
      (EccID.known CurveKind.BN254)
      (newMimcBN256 (fun _ => [(1 : ZMod 13), 2])) "seed"
      (newMimcBN256 (fun _ => [(1 : ZMod 13), 2]) "seed")
      (newMimcBN256 (fun _ => [(1 : ZMod 13), 2]) "seed") rfl rfl rfl⟩

/-- C10: the permutation-hash dispatch tables contain entries for exactly
four curve variants — BN254, BLS12-381, BLS12-377 and BW6-761 — so every
other identifier (the registry's other three variants included) has no
registered constructor or encrypt function. -/
theorem mimc_tables_domain (F : Type) [Field F]
    (NP : CurveKind → String → List F) (id : EccID) :
    ((encryptFuncs F id).isSome ↔
      (id = EccID.known CurveKind.BN254 ∨ id = EccID.known CurveKind.BLS12_381 ∨
       id = EccID.known CurveKind.BLS12_377 ∨ id = EccID.known CurveKind.BW6_761)) ∧
    ((newMimc NP id).isSome ↔
      (id = EccID.known CurveKind.BN254 ∨ id = EccID.known CurveKind.BLS12_381 ∨
       id = EccID.known CurveKind.BLS12_377 ∨ id = EccID.known CurveKind.BW6_761)) := by
  rcases id with k | t
  · cases k <;> simp [encryptFuncs, newMimc]
  · simp [encryptFuncs, newMimc]

/-- C5: evaluating the `Mul` gadget's emitted gates on a concrete witness
assignment yields the native extension-field product
`(a0·b0 + n·a1·b1, a1·b0 + a0·b1)`; in particular with `n = 5`, `a = (3,4)`,
`b = (1,2)` the result is `(43, 10)`. -/
theorem mul_gadget_eval (F : Type) [Field F] (cs csx : ConstraintSystem)
    (n a0 a1 b0 b1 : F) :
    (Fp2Elmt.Mul cs ⟨a0, a1⟩ ⟨b0, b1⟩ ⟨n⟩).2 =
      ⟨a0 * b0 + n * (a1 * b1), a1 * b0 + a0 * b1⟩ ∧
    (Fp2Elmt.Mul csx ⟨(3 : F), 4⟩ ⟨1, 2⟩ ⟨5⟩).2 = ⟨43, 10⟩ := by
  constructor <;>
    · simp only [Fp2Elmt.Mul, ConstraintSystem.Add2, ConstraintSystem.Mul,
        Fp2Elmt.mk.injEq]
      exact ⟨by ring, by ring⟩

/-- C9: for every extension-field element `a` that is nonzero (with the
extension parameter a genuine non-residue, as the extension requires),
multiplying the result of the `Inverse` gadget by `a` yields the
extension-field identity `(1, 0)`, on any concrete witness assignment. -/
theorem inverse_mul_identity (F : Type) [Field F] (ext : Extension F)
    (a : Fp2Elmt F) (hn : ∀ x : F, x * x ≠ ext.uSquare)
    (ha : a ≠ ⟨0, 0⟩) (cs cs' : ConstraintSystem) :
    (Fp2Elmt.Mul cs' (Fp2Elmt.Inverse cs a ext).2 a ext).2 = ⟨1, 0⟩ := by
  obtain ⟨x, y⟩ := a
  obtain ⟨n⟩ := ext
  have hd : x * x - n * (y * y) ≠ 0 := by
    by_cases hy : y = 0
    · have hx : x ≠ 0 := by
        intro hx0
        exact ha (by rw [hx0, hy])
      subst hy
      simpa using mul_ne_zero hx hx
    · intro h0
      apply hn (x / y)
      have hxx : x * x = n * (y * y) := by
        have := sub_eq_zero.mp h0
        linear_combination this
      field_simp
      linear_combination hxx
  simp only [Fp2Elmt.Inverse, Fp2Elmt.Mul, ConstraintSystem.Mul,
    ConstraintSystem.Inverse, ConstraintSystem.Add2, Fp2Elmt.mk.injEq]
  constructor
  · field_simp
    ring
  · field_simp
    ring

/-- Witness for C9 at concrete inputs: over `ZMod 13`, `5` is a non-residue
and `a = (3, 4)` is nonzero; the gadget product of `Inverse(a)` and `a`
is `(1, 0)`. -/
theorem inverse_mul_identity_witness :
    (∀ x : ZMod 13, x * x ≠ (Extension.mk (5 : ZMod 13)).uSquare) ∧
    (Fp2Elmt.mk (3 : ZMod 13) 4 ≠ ⟨0, 0⟩) ∧
    (Fp2Elmt.Mul ⟨[]⟩
        (Fp2Elmt.Inverse ⟨[]⟩ ⟨(3 : ZMod 13), 4⟩ ⟨5⟩).2
        ⟨(3 : ZMod 13), 4⟩ ⟨5⟩).2 = ⟨1, 0⟩ :=
  ⟨by decide, by decide,
    inverse_mul_identity (ZMod 13) ⟨5⟩ ⟨3, 4⟩ (by decide) (by decide) ⟨[]⟩ ⟨[]⟩⟩
